import Mathlib

set_option linter.unusedVariables false

/-!
Verification of the connection-pooling MySQL database adapter
(Products/ZMySQLDA/db.py).  The Python module is shallowly embedded:
each relevant function is translated into an executable Lean definition,
with Python exceptions modelled by an explicit error type, the native
client library modelled as an oracle argument (a function supplied by the
caller of the definition), and mutable connection attributes modelled as
explicit state records.
-/

/-- Python exception values raised or caught by db.py.  `operationalError`
and `programmingError` carry the numeric server error code in `args[0]`
together with the message; `programmingErrorMsg` is a ProgrammingError
whose only argument is a message string (as raised by `DB.query` for
mismatched schemas); `valueError` models the ValueError raised by the
builtin `int()` on a malformed literal; `indexError` models subscripting
an empty list; `unboundLocalError` models reading a local variable that
was never assigned. -/
inductive PyErr where
  | operationalError (code : Int) (msg : String)
  | programmingError (code : Int) (msg : String)
  | programmingErrorMsg (msg : String)
  | notSupportedError (msg : String)
  | conflictError
  | attributeError
  | valueError (msg : String)
  | indexError
  | unboundLocalError (name : String)
  deriving DecidableEq

/-- Accumulator pass behind `pySplitWs`: `acc` holds the characters of the
current token in reverse. -/
def pySplitWsAux : List Char → List Char → List String
  | [], acc => if acc = [] then [] else [String.mk acc.reverse]
  | c :: cs, acc =>
    if c.isWhitespace then
      if acc = [] then pySplitWsAux cs []
      else String.mk acc.reverse :: pySplitWsAux cs []
    else pySplitWsAux cs (c :: acc)

/-- Python `str.split()` with no separator argument: split on runs of
whitespace, dropping empty pieces. -/
def pySplitWs (s : String) : List String :=
  pySplitWsAux s.toList []

/-- Accumulator pass behind `splitFirst`: `acc` holds the characters already
passed, in reverse. -/
def splitFirstAux (c : Char) : List Char → List Char → String × String
  | [], acc => (String.mk acc.reverse, "")
  | x :: xs, acc =>
    if x = c then (String.mk acc.reverse, String.mk xs)
    else splitFirstAux c xs (x :: acc)

/-- Python `s.split(sep, 1)` for a one-character separator `c` that occurs in
`s`: the pieces strictly before and strictly after its first occurrence
(only ever used after membership of `c` in `s` has been checked). -/
def splitFirst (s : String) (c : Char) : String × String :=
  splitFirstAux c s.toList []

/-- Whether the character `c` occurs in `s` (Python `c in s`). -/
def strContains (s : String) (c : Char) : Bool :=
  s.toList.contains c

/-- Python `s[:n]` for a nonnegative `n`. -/
def pyTake (s : String) (n : Nat) : String :=
  String.mk (s.toList.take n)

/-- Python `s[n:]` for a nonnegative `n`. -/
def pyDrop (s : String) (n : Nat) : String :=
  String.mk (s.toList.drop n)

/-- Drop leading whitespace from a character list. -/
def dropLeadingWs : List Char → List Char
  | [] => []
  | c :: cs => if c.isWhitespace then dropLeadingWs cs else c :: cs

/-- Python `s.strip()` with no argument: remove leading and trailing
whitespace. -/
def pyStrip (s : String) : String :=
  String.mk ((dropLeadingWs (dropLeadingWs s.toList).reverse).reverse)

/-- Digit tail of a Python integer literal, with single underscores permitted
between digits (CPython 3.6+); accumulates the value. -/
def pyDigitsCore : List Char → Nat → Option Nat
  | [], acc => some acc
  | c :: rest, acc =>
    if c.isDigit then pyDigitsCore rest (acc * 10 + (c.toNat - 48))
    else if c = '_' then
      match rest with
      | [] => none
      | d :: rest' =>
        if d.isDigit then pyDigitsCore rest' (acc * 10 + (d.toNat - 48)) else none
    else none

/-- A nonempty run of ASCII digits (with optional internal underscores),
which must start with a digit. -/
def pyDigitsStart : List Char → Option Nat
  | [] => none
  | c :: rest => if c.isDigit then pyDigitsCore rest (c.toNat - 48) else none

/-- Model of the Python builtin `int(s)` on a decimal string literal:
surrounding whitespace is ignored, an optional sign precedes a nonempty
run of ASCII digits.  `none` models the ValueError that `int` raises on
anything else.  (The tokens fed to `int` by db.py come from
`connection.split()` and therefore contain no whitespace.) -/
def pyParseInt (s : String) : Option Int :=
  match (pyStrip s).toList with
  | '+' :: rest => (pyDigitsStart rest).map Int.ofNat
  | '-' :: rest => (pyDigitsStart rest).map (fun n => -(Int.ofNat n))
  | rest => (pyDigitsStart rest).map Int.ofNat

/-- Python truthiness of an optional string attribute: `None` and the empty
string are falsy, every other string is truthy. -/
def optStrTruthy (o : Option String) : Bool :=
  match o with
  | none => false
  | some s => s ≠ ""

/-- The `kw_args` dictionary assembled by `DB._parse_connection_string`
(db.py lines 329-368).  A missing dictionary key is modelled as `none`.
The `conv` entry (a conversion table taken from the class attribute) is
not represented, since no claim depends on it;
`client_flag_multi_statements` records whether
`kw_args["client_flag"] = CLIENT.MULTI_STATEMENTS` was set. -/
structure KwArgs where
  db : Option String := none
  host : Option String := none
  port : Option Int := none
  user : Option String := none
  passwd : Option String := none
  unix_socket : Option String := none
  use_unicode : Bool := false
  charset : Option String := none
  client_flag_multi_statements : Bool := false
  deriving DecidableEq

/-- The `flags` dictionary returned by `DB._parse_connection_string`
(db.py lines 329-370).  For `mysql_lock` and `try_transactions` a key that
is absent (empty connection string) and a key set to Python `None` are both
modelled as `none`; `use_TM` is `none` for Python `None` and `some true`
when the lock branch sets it. -/
structure ConnFlags where
  kw_args : KwArgs
  connection : String
  use_TM : Option Bool
  mysql_lock : Option String := none
  try_transactions : Option String := none
  deriving DecidableEq

/-- db.py lines 339-346: the first whitespace token either names an advisory
lock (leading `*`, in which case the next token is the database target and
`use_TM` is forced to True) or is itself the database target.  Subscripting
`items[0]` when the lock token was the only token raises IndexError.
Returns (mysql_lock, use_TM, db_host, remaining items). -/
def targetStep (lockreq : String) (rest : List String) :
    Except PyErr (Option String × Option Bool × String × List String) :=
  if pyTake lockreq 1 = "*" then
    match rest with
    | [] => .error .indexError
    | db_host :: rest' => .ok (some (pyDrop lockreq 1), some true, db_host, rest')
  else .ok (none, none, lockreq, rest)

/-- db.py lines 347-355: split the database target at the first `@` into
database name and host, and the host at the first `:` into host and port;
the port text is converted with `int()`, whose failure on a malformed
literal is the ValueError modelled here.  Returns (db, host, port). -/
def parseDbHost (db_host : String) :
    Except PyErr (String × Option String × Option Int) :=
  if strContains db_host '@' then
    let db := (splitFirst db_host '@').1
    let host0 := (splitFirst db_host '@').2
    if strContains host0 ':' then
      match pyParseInt ((splitFirst host0 ':').2) with
      | none => .error (.valueError ((splitFirst host0 ':').2))
      | some p => .ok (db, some ((splitFirst host0 ':').1), some p)
    else .ok (db, some host0, none)
  else .ok (db_host, none, none)

/-- The `kw_args` entries set before the token scan (db.py lines 329-337):
the unicode switches and, for a client library of major version at least 5,
the MULTI_STATEMENTS client flag; `client_ge5` stands for the external
client library predicate `_mysql.get_client_info()[0] >= "5"`. -/
def baseKwArgs (use_unicode client_ge5 : Bool) : KwArgs :=
  { use_unicode := use_unicode,
    charset := (if use_unicode then some ("utf8") else none),
    client_flag_multi_statements := client_ge5 }

/-- db.py lines 356-368: a leading `+` or `-` on the database name is
stripped into `try_transactions`, an emptied database name is deleted from
`kw_args`, and the remaining tokens are in order user, password and unix
socket (extra tokens are dropped since `items` is rebound and unused). -/
def finishTarget (kw0 : KwArgs) (connection : String) (mysql_lock : Option String)
    (use_TM : Option Bool) (db0 : String) (host : Option String)
    (port : Option Int) (items : List String) : ConnFlags :=
  let policy : Option String :=
    if db0 ≠ "" ∧ (pyTake db0 1 = "+" ∨ pyTake db0 1 = "-") then
      some (pyTake db0 1)
    else none
  let db1 := if policy.isSome then pyDrop db0 1 else db0
  { kw_args :=
      { kw0 with
        db := (if db1 = "" then none else some db1),
        host := host, port := port,
        user := items.head?, passwd := (items.drop 1).head?,
        unix_socket := (items.drop 2).head? },
    connection := connection, use_TM := use_TM,
    mysql_lock := mysql_lock, try_transactions := policy }

/-- db.py lines 347-368 as one step: resolve the database target with
`parseDbHost` and, on success, finish the flags with `finishTarget`. -/
def parseTarget (kw0 : KwArgs) (connection : String) (mysql_lock : Option String)
    (use_TM : Option Bool) (db_host : String) (items : List String) :
    Except PyErr ConnFlags :=
  match parseDbHost db_host with
  | .error e => .error e
  | .ok (db0, host, port) =>
    .ok (finishTarget kw0 connection mysql_lock use_TM db0 host port items)

/-- db.py lines 338-368 for a nonempty token list: resolve the advisory-lock
token with `targetStep` and continue with `parseTarget`. -/
def parseTail (kw0 : KwArgs) (connection lockreq : String) (rest : List String) :
    Except PyErr ConnFlags :=
  match targetStep lockreq rest with
  | .error e => .error e
  | .ok (mysql_lock, use_TM, db_host, items) =>
    parseTarget kw0 connection mysql_lock use_TM db_host items

/-- `DB._parse_connection_string` (db.py lines 320-370): split the DSN into
whitespace tokens, take the advisory-lock token if present, split the
database target into database, host and integer port, strip the
transactional-policy marker, and read user, password and unix socket from
the remaining tokens. -/
def DB._parse_connection_string (connection : String) (use_unicode : Bool)
    (client_ge5 : Bool) : Except PyErr ConnFlags :=
  match pySplitWs connection with
  | [] =>
    .ok { kw_args := baseKwArgs use_unicode client_ge5, connection := connection,
          use_TM := none, mysql_lock := none, try_transactions := none }
  | lockreq :: rest =>
    parseTail (baseKwArgs use_unicode client_ge5) connection lockreq rest

/-- The port text a DSN target carries past its first `:`, when the target
has an `@` part with a `:` part; mirrors exactly the path on which
`DB._parse_connection_string` calls `int()` on a port. -/
def portTokenOfDbHost (db_host : String) : Option String :=
  if strContains db_host '@' then
    let host0 := (splitFirst db_host '@').2
    if strContains host0 ':' then some ((splitFirst host0 ':').2) else none
  else none

/-- The port token carried by a nonempty token list, mirroring `parseTail`. -/
def portTokenOfTail (lockreq : String) (rest : List String) : Option String :=
  match targetStep lockreq rest with
  | .error _ => none
  | .ok (_, _, db_host, _) => portTokenOfDbHost db_host

/-- The port token of a whole DSN string: the database target is located as
in `DB._parse_connection_string` and then examined with
`portTokenOfDbHost`. -/
def portTokenOf (connection : String) : Option String :=
  match pySplitWs connection with
  | [] => none
  | lockreq :: rest => portTokenOfTail lockreq rest

/-- The `hosed_connection` table of db.py lines 38-43, keyed by the
connection-lost-class error codes: CR.SERVER_GONE_ERROR = 2006,
CR.SERVER_LOST = 2013, CR.COMMANDS_OUT_OF_SYNC = 2014. -/
def hosed_connection : List Int := [2006, 2013, 2014]

/-- The statement-error code tuple of db.py line 45 (ER.BAD_FIELD_ERROR =
1054), used to re-raise a failure annotated with the statement text. -/
def bad_field_error_codes : List Int := [1054]

/-- Outcome of one call of the native handle's `db.query` (the external
client library): success, an OperationalError or a ProgrammingError, the
latter two carrying `args[0]` (the server error code) and `args[1]` (the
message). -/
inductive NativeOutcome where
  | ok
  | opErr (code : Int) (msg : String)
  | progErr (code : Int) (msg : String)
  deriving DecidableEq

/-- Observable trace of one `DB._query` call: its outcome (success stands
for the buffered result of `store_result`), how many times the statement
was submitted to a native handle, and how many forced reconnections
(`_forceReconnection` calls) were performed. -/
structure QueryAttempt where
  outcome : Except PyErr Unit
  submissions : Nat
  reconnects : Nat

/-- `DB._query` (db.py lines 446-483).  `native n` is the outcome the native
handle gives the n-th submission of this call.  An OperationalError whose
code is in `bad_field_error_codes` is re-raised annotated with the
statement; one whose code is outside `hosed_connection`, or that hits a
connection holding an advisory lock or configured transactional (unless
`force_reconnect` overrides), is re-raised; otherwise the handle is
recreated and the statement resubmitted once, the retry unguarded.  A
ProgrammingError with a `hosed_connection` code recreates the handle but
is re-raised without resubmission; other ProgrammingErrors are re-raised
directly. -/
def DB._query (mysql_lock : Option String) (transactions : Bool)
    (force_reconnect : Bool) (query : String)
    (native : Nat → NativeOutcome) : QueryAttempt :=
  match native 0 with
  | .ok => ⟨.ok (), 1, 0⟩
  | .opErr code msg =>
    if bad_field_error_codes.contains code then
      ⟨.error (.operationalError code (msg ++ ": " ++ query)), 1, 0⟩
    else if (!force_reconnect && (optStrTruthy mysql_lock || transactions))
        || !(hosed_connection.contains code) then
      ⟨.error (.operationalError code msg), 1, 0⟩
    else
      match native 1 with
      | .ok => ⟨.ok (), 2, 1⟩
      | .opErr c2 m2 => ⟨.error (.operationalError c2 m2), 2, 1⟩
      | .progErr c2 m2 => ⟨.error (.programmingError c2 m2), 2, 1⟩
  | .progErr code msg =>
    if hosed_connection.contains code then
      ⟨.error (.programmingError code msg), 1, 1⟩
    else
      ⟨.error (.programmingError code msg), 1, 0⟩

/-- The transaction-relevant attributes of a `DB` instance: the advisory
lock name (`_mysql_lock`), the transactional configuration
(`_transactions`) and the in-transaction flag (`_transaction_begun`). -/
structure TxState where
  mysql_lock : Option String
  transactions : Bool
  transaction_begun : Bool
  deriving DecidableEq

/-- Observable trace of one transaction-boundary call: the connection state
afterwards, the statements submitted through `_query` in order, and the
call's outcome. -/
structure TxStep where
  state : TxState
  sent : List String
  result : Except PyErr Unit

/-- Submit statements in order through the oracle `exec` (the outcome
`_query` gives each statement), stopping at the first failure; returns the
statements actually submitted and the final outcome. -/
def runStmts (exec : String → Except PyErr Unit) :
    List String → List String × Except PyErr Unit
  | [] => ([], .ok ())
  | s :: rest =>
    match exec s with
    | .error e => ([s], .error e)
    | .ok _ =>
      let t := runStmts exec rest
      (s :: t.1, t.2)

/-- The statement of db.py lines 559-560 and 573-574. -/
def releaseLockStmt (c : TxState) : String :=
  "SELECT RELEASE_LOCK('" ++ c.mysql_lock.getD ("") ++ "')"

/-- The statement of db.py line 547. -/
def getLockStmt (c : TxState) : String :=
  "SELECT GET_LOCK('" ++ c.mysql_lock.getD ("") ++ "',0)"

/-- The statements `DB._begin` submits once the ping succeeded
(db.py lines 544-547): BEGIN when transactional, then the non-blocking
advisory lock acquisition when a lock is configured. -/
def beginStmts (c : TxState) : List String :=
  (if c.transactions then ["BEGIN"] else []) ++
  (if optStrTruthy c.mysql_lock then [getLockStmt c] else [])

/-- The statements `DB._finish` submits (db.py lines 558-562): the advisory
lock release when a lock is configured, then COMMIT when transactional. -/
def finishStmts (c : TxState) : List String :=
  (if optStrTruthy c.mysql_lock then [releaseLockStmt c] else []) ++
  (if c.transactions then ["COMMIT"] else [])

/-- The statements `DB._abort` submits (db.py lines 573-578): the advisory
lock release when a lock is configured, then ROLLBACK when transactional
(when non-transactional only an error is logged). -/
def abortStmts (c : TxState) : List String :=
  (if optStrTruthy c.mysql_lock then [releaseLockStmt c] else []) ++
  (if c.transactions then ["ROLLBACK"] else [])

/-- `DB._begin` (db.py lines 538-550).  The in-transaction flag is set first,
inside the try block; `ping` is the outcome of `self.db.ping()` and `exec`
the outcome `_query` gives each statement.  Any exception is logged and
re-raised as ConflictError. -/
def DB._begin (c : TxState) (ping : Except PyErr Unit)
    (exec : String → Except PyErr Unit) : TxStep :=
  let c' := { c with transaction_begun := true }
  match ping with
  | .error _ => ⟨c', [], .error .conflictError⟩
  | .ok _ =>
    let r := runStmts exec (beginStmts c)
    ⟨c', r.1, (match r.2 with | .ok _ => .ok () | .error _ => .error .conflictError)⟩

/-- `DB._finish` (db.py lines 552-565): a no-op while idle; otherwise the
flag is cleared first, then the lock release and COMMIT are submitted, any
exception being re-raised as ConflictError. -/
def DB._finish (c : TxState) (exec : String → Except PyErr Unit) : TxStep :=
  if c.transaction_begun = false then ⟨c, [], .ok ()⟩
  else
    let r := runStmts exec (finishStmts c)
    ⟨{ c with transaction_begun := false }, r.1,
     (match r.2 with | .ok _ => .ok () | .error _ => .error .conflictError)⟩

/-- `DB._abort` (db.py lines 567-578): a no-op while idle; otherwise the
flag is cleared first, then the lock release and ROLLBACK are submitted
with no exception handler, so a failure propagates as raised. -/
def DB._abort (c : TxState) (exec : String → Except PyErr Unit) : TxStep :=
  if c.transaction_begun = false then ⟨c, [], .ok ()⟩
  else
    let r := runStmts exec (abortStmts c)
    ⟨{ c with transaction_begun := false }, r.1, r.2⟩

/-- An oracle under which every submitted statement succeeds. -/
def okExec : String → Except PyErr Unit := fun _ => .ok ()

/-- Native behaviour raising ProgrammingError 2014 (commands out of sync, a
`hosed_connection` code) on every submission. -/
def nativeProgErr2014 : Nat → NativeOutcome :=
  fun _ => .progErr 2014 ("Commands out of sync")

/-- Native behaviour losing the connection (OperationalError 2013, a
`hosed_connection` code) on the first submission and again on the retry. -/
def nativeLostTwice : Nat → NativeOutcome :=
  fun n => if n = 0 then .opErr 2013 ("Server lost") else .opErr 2013 ("Lost again")


/-- Python `s.upper()` on ASCII text. -/
def pyUpper (s : String) : String :=
  String.mk (s.toList.map Char.toUpper)

/-- Accumulator pass behind `pySplitChar`. -/
def pySplitCharAux (sep : Char) : List Char → List Char → List String
  | [], acc => [String.mk acc.reverse]
  | x :: xs, acc =>
    if x = sep then String.mk acc.reverse :: pySplitCharAux sep xs []
    else pySplitCharAux sep xs (x :: acc)

/-- Python `s.split(sep)` for a one-character separator: split at every
occurrence, keeping empty pieces. -/
def pySplitChar (s : String) (sep : Char) : List String :=
  pySplitCharAux sep s.toList []

/-- db.py line 491: the statements of a batch are separated by the null
byte, stripped, and empty pieces are dropped. -/
def stmtsOf (query_string : String) : List String :=
  ((pySplitChar query_string '\x00').map pyStrip).filter (fun q => q ≠ "")

/-- db.py line 492, `qs.split(None, 1)[0]`: the first whitespace-delimited
word of a statement (empty for an all-whitespace statement, which the
filter in `stmtsOf` has already removed). -/
def firstWord (s : String) : String :=
  (pySplitWs s).headD ("")

/-- db.py lines 492-494: a statement whose first word upper-cases to SELECT
has ` LIMIT max_rows` appended when `max_rows` is truthy (nonzero), and is
left unmodified otherwise. -/
def mungeStatement (qs : String) (max_rows : Nat) : String :=
  if pyUpper (firstWord qs) = "SELECT" ∧ max_rows ≠ 0 then
    qs ++ " LIMIT " ++ toString max_rows
  else qs

/-- One field of a native result description: the 7-tuple returned per
column by the native `describe()` — name, type code, display size,
internal size, precision, scale, null flag. -/
structure FieldDesc where
  name : String
  type_code : Nat
  display_size : Nat
  internal_size : Nat
  precision : Nat
  scale : Nat
  null_ok : Nat
  deriving DecidableEq

/-- A stored native result set: its column description and its rows (cell
values left opaque as strings). -/
structure RS where
  desc : List FieldDesc
  rows : List (List String)
  deriving DecidableEq

/-- The `DB.defs` display-type table (db.py lines 261-276), keyed by the
native FIELD_TYPE codes: CHAR/TINY = 1, DATE = 10, DATETIME = 12,
DECIMAL = 0, NEWDECIMAL = 246, DOUBLE = 5, FLOAT = 4, INT24 = 9, LONG = 3,
LONGLONG = 8, SHORT = 2, TIMESTAMP = 7, YEAR = 13. -/
def DB.defs : List (Nat × String) :=
  [(1, "i"), (10, "d"), (12, "d"), (0, "n"), (246, "n"), (5, "n"), (4, "n"),
   (9, "i"), (3, "i"), (8, "l"), (2, "i"), (7, "d"), (13, "i")]

/-- `defs.get(code, "t")` of db.py line 519. -/
def defsGet (t : Nat) : String :=
  ((DB.defs.find? (fun p => p.1 = t)).map Prod.snd).getD ("t")

/-- One column descriptor of `DB.query`'s return value
(db.py lines 516-523): name, coarse display type, width, null flag. -/
structure ColItem where
  name : String
  type : String
  width : Nat
  null : Nat
  deriving DecidableEq

/-- db.py lines 516-523: build one return-value column descriptor from a
native description field. -/
def descItem (d : FieldDesc) : ColItem :=
  ⟨d.name, defsGet d.type_code, d.display_size, d.null_ok⟩

/-- `result.fetch_row(max_rows)` of the native layer: `maxrows = 0` fetches
every row, a nonzero `maxrows` fetches at most that many. -/
def fetch_row (rs : RS) (max_rows : Nat) : List (List String) :=
  if max_rows = 0 then rs.rows else rs.rows.take max_rows

/-- The statement loop of `DB.query` (db.py lines 491-508).  `exec` is the
native layer: the stored result (None for a statement that produces no
result set) each munged statement's submission yields; submissions are
assumed not to raise, which is the situation all batch claims describe.
`desc` carries the previous statement's description (None when the
previous statement produced no result); a statement producing a result
whose description differs from a present `desc` raises ProgrammingError;
otherwise the result's description and its fetched rows (all rows when
`max_rows` is 0, at most `max_rows` otherwise) replace the accumulators,
and a statement with no result resets `desc` to None while leaving the
fetched rows in place.  The `next_result()` call that discards a stored
procedure's trailing status result (db.py lines 506-508) only repositions
the native result stream, which the per-statement oracle already
abstracts, so it has no observable counterpart here. -/
def queryLoop (exec : String → Option RS) (max_rows : Nat) :
    List String → Option (List FieldDesc) → List (List String) →
    Except PyErr (Option (List FieldDesc) × List (List String))
  | [], desc, result => .ok (desc, result)
  | qs :: rest, desc, result =>
    match desc, exec (mungeStatement qs max_rows) with
    | some d, some rs =>
      if rs.desc ≠ d then
        .error (.programmingErrorMsg ("Multiple select schema are not allowed."))
      else queryLoop exec max_rows rest (some rs.desc) (fetch_row rs max_rows)
    | none, some rs => queryLoop exec max_rows rest (some rs.desc) (fetch_row rs max_rows)
    | _, none => queryLoop exec max_rows rest none result

/-- `DB.query` (db.py lines 485-524): run the batch through `queryLoop` and,
unless the final description is None (in which case the result is a pair
of empty tuples), return the column descriptors built by `descItem`
together with the retained rows. -/
def DB.query (exec : String → Option RS) (query_string : String)
    (max_rows : Nat) : Except PyErr (List ColItem × List (List String)) :=
  match queryLoop exec max_rows (stmtsOf query_string) none [] with
  | .error e => .error e
  | .ok (none, _) => .ok ([], [])
  | .ok (some d, result) => .ok (d.map descItem, result)

/-- Whether a statement outcome clashes with the previous statement's
description the way db.py line 497 checks: both present and differing. -/
def pairMismatch (d : Option (List FieldDesc)) (o : Option RS) : Bool :=
  match d, o with
  | some dd, some rs => !(decide (rs.desc = dd))
  | _, _ => false

/-- Whether a run of statement outcomes, entered with previous description
`d`, ever produces a result set right after a result set with a different
description. -/
def consecMismatchFrom (d : Option (List FieldDesc)) :
    List (Option RS) → Bool
  | [] => false
  | o :: rest => pairMismatch d o || consecMismatchFrom (o.map RS.desc) rest

/-- Whether two consecutive result-producing statements of a batch have
differing descriptions. -/
def consecMismatch (os : List (Option RS)) : Bool :=
  consecMismatchFrom none os

/-- The accumulator pair `queryLoop` ends with when no mismatch stops it. -/
def loopPure (max_rows : Nat) : List (Option RS) →
    Option (List FieldDesc) → List (List String) →
    Option (List FieldDesc) × List (List String)
  | [], d, r => (d, r)
  | some rs :: rest, _, _ =>
    loopPure max_rows rest (some rs.desc) (fetch_row rs max_rows)
  | none :: rest, _, r => loopPure max_rows rest none r

/-- The last element of a list of statement outcomes (None for an empty
batch). -/
def lastOutcome : List (Option RS) → Option RS
  | [] => none
  | [o] => o
  | _ :: o :: rest => lastOutcome (o :: rest)

/-- A one-column result set named `a` with one row. -/
def rsA : RS := ⟨[⟨"a", 3, 11, 11, 11, 0, 0⟩], [["1"]]⟩

/-- A one-column result set named `c`, of a different description than
`rsA`, with one row. -/
def rsC : RS := ⟨[⟨"c", 253, 20, 20, 20, 0, 0⟩], [["x"]]⟩

/-- A native layer under which the first and third statement of the C4
counterexample batch produce the differing result sets `rsA` and `rsC`
while the middle statement produces none. -/
def execC4 : String → Option RS :=
  fun s =>
    if s = "SHOW A" then some rsA
    else if s = "SHOW C" then some rsC
    else none

/-- Python string comparison `a < b`: lexicographic on code points. -/
def pyStrLtChars : List Char → List Char → Bool
  | [], [] => false
  | [], _ :: _ => true
  | _ :: _, [] => false
  | a :: as, b :: bs =>
    if a.toNat < b.toNat then true
    else if b.toNat < a.toNat then false
    else pyStrLtChars as bs

/-- Python `a < b` on strings. -/
def pyStrLt (a b : String) : Bool :=
  pyStrLtChars a.toList b.toList

/-- The `_version` cache and in-transaction flag of a `DB` instance as seen
by `DB.savepoint`. -/
structure SpConn where
  version_cache : Option String
  transaction_begun : Bool
  deriving DecidableEq

/-- Observable trace of one `DB.savepoint` call: connection afterwards,
statements submitted, and outcome (the created savepoint's identifier on
success). -/
structure SpResult where
  conn : SpConn
  sent : List String
  result : Except PyErr String

/-- `DB._mysql_version` (db.py lines 580-587): the version is memoized in
`_version`; while the cache is falsy (absent, None or empty) the
`variables()` call submits SHOW VARIABLES and the server's reported
version (`serverVersion`, assumed present and delivered without error) is
cached.  Returns (connection, statements submitted, version). -/
def DB._mysql_version (c : SpConn) (serverVersion : String) :
    SpConn × List String × String :=
  if c.version_cache.getD ("") ≠ "" then (c, [], c.version_cache.getD (""))
  else ({ c with version_cache := some serverVersion }, ["SHOW VARIABLES"],
        serverVersion)

/-- `DB.savepoint` (db.py lines 589-604) together with `_SavePoint.__init__`
(lines 611-614): the server version is fetched first and compared as a
string against `5.0.2`; an old version or an idle connection raises
AttributeError (the optimistic signal); otherwise a SAVEPOINT statement
with a time-derived identifier (`ident`, supplied as a parameter) is
submitted. -/
def DB.savepoint (c : SpConn) (serverVersion ident : String) : SpResult :=
  match DB._mysql_version c serverVersion with
  | (c1, sent, ver) =>
    if pyStrLt ver ("5.0.2") then ⟨c1, sent, .error .attributeError⟩
    else if c1.transaction_begun = false then ⟨c1, sent, .error .attributeError⟩
    else ⟨c1, sent ++ ["SAVEPOINT " ++ ident], .ok ident⟩

/-- db.py lines 155-163 of `DBPool.__call__`: reconcile the requested
transactional policy (`try_transactions`, the stripped `+`/`-` marker or
None) with the probed server capability (`transactional`, whether the
server capability bits contain CLIENT.TRANSACTIONS): `-` forces
non-transactional, `+` against a non-transactional server raises
NotSupportedError, otherwise the probed capability is kept. -/
def DBPool.reconcile_transactions (try_transactions : Option String)
    (transactional : Bool) : Except PyErr Bool :=
  if try_transactions = some ("-") then .ok false
  else if transactional = false ∧ try_transactions = some ("+") then
    .error (.notSupportedError ("transactions not supported by the server"))
  else .ok transactional

/-- The value built by the external DateTime constructor, modelled as the
constructor's string argument. -/
structure PyDateTime where
  value : String
  deriving DecidableEq

/-- Left-pad a numeral with zeros to width `w`. -/
def leftZeroPad (w : Nat) (s : String) : String :=
  if s.length < w then String.mk (List.replicate (w - s.length) '0') ++ s
  else s

/-- Python `"%0wd" % n`: zero-pad to width `w`, the sign counting toward
the width. -/
def py0pad (w : Nat) (n : Int) : String :=
  if n < 0 then "-" ++ leftZeroPad (w - 1) (toString (-n).toNat)
  else leftZeroPad w (toString n.toNat)

/-- Python `s[a:b]` for `a ≤ b` within range. -/
def pySlice (s : String) (a b : Nat) : String :=
  String.mk ((s.toList.drop a).take (b - a))

/-- `_mysql_timestamp_converter` (db.py lines 86-90).  Only the branch for
strings shorter than 14 characters assigns `parts`: it zero-pads the
string to 14 characters, converts six two-to-four character slices with
`int()` (whose failure raises ValueError) and hands the zero-padded
rendering to DateTime.  For a string of length 14 or more the `return`
line reads the never-assigned local `parts`, raising UnboundLocalError. -/
def _mysql_timestamp_converter (s : String) : Except PyErr PyDateTime :=
  if s.length < 14 then
    let s14 := s ++ String.mk (List.replicate (14 - s.length) '0')
    match pyParseInt (pySlice s14 0 4), pyParseInt (pySlice s14 4 6),
          pyParseInt (pySlice s14 6 8), pyParseInt (pySlice s14 8 10),
          pyParseInt (pySlice s14 10 12), pyParseInt (pySlice s14 12 14) with
    | some y, some mo, some d, some h, some mi, some se =>
      .ok ⟨py0pad 4 y ++ "-" ++ py0pad 2 mo ++ "-" ++ py0pad 2 d ++ " " ++
           py0pad 2 h ++ ":" ++ py0pad 2 mi ++ ":" ++ py0pad 2 se⟩
    | _, _, _, _, _, _ =>
      .error (.valueError ("invalid literal for int() with base 10"))
  else .error (.unboundLocalError ("parts"))

/-! ## Theorems -/

/-- Helper for C8: if the database target carries a port separator whose port
text `int()` rejects, `parseDbHost` fails with that ValueError. -/
theorem parseDbHost_bad_port (db_host t : String)
    (h : portTokenOfDbHost db_host = some t) (hbad : pyParseInt t = none) :
    parseDbHost db_host = .error (.valueError t) := by
  unfold portTokenOfDbHost at h
  unfold parseDbHost
  cases hat : strContains db_host '@' with
  | false => rw [hat] at h; simp at h
  | true =>
    rw [hat] at h
    simp only [if_true] at h ⊢
    cases hcol : strContains ((splitFirst db_host '@').2) ':' with
    | false => rw [hcol] at h; simp at h
    | true =>
      rw [hcol] at h
      simp only [if_true, Option.some.injEq] at h
      subst h
      rw [hbad]
      rfl

/-- Helper for C8: `parseTarget` fails likewise. -/
theorem parseTarget_bad_port (kw0 : KwArgs) (conn : String)
    (ml : Option String) (utm : Option Bool) (db_host t : String)
    (items : List String)
    (h : portTokenOfDbHost db_host = some t) (hbad : pyParseInt t = none) :
    parseTarget kw0 conn ml utm db_host items = .error (.valueError t) := by
  unfold parseTarget
  rw [parseDbHost_bad_port db_host t h hbad]

/-- Helper for C8: `parseTail` fails likewise. -/
theorem parseTail_bad_port (kw0 : KwArgs) (conn lockreq : String)
    (rest : List String) (t : String)
    (h : portTokenOfTail lockreq rest = some t) (hbad : pyParseInt t = none) :
    parseTail kw0 conn lockreq rest = .error (.valueError t) := by
  unfold portTokenOfTail at h
  unfold parseTail
  cases ht : targetStep lockreq rest with
  | error e => rw [ht] at h; simp at h
  | ok tup =>
    obtain ⟨ml, utm, dbh, its⟩ := tup
    rw [ht] at h
    have h' : portTokenOfDbHost dbh = some t := h
    exact parseTarget_bad_port kw0 conn ml utm dbh t its h' hbad

/-- C3: parsing the DSN `*lockA +mydb@host:3306 user pass /tmp/sock` yields
advisory-lock token `lockA`, transactional policy force-on (`+`), database
`mydb`, host `host`, integer port 3306, user `user`, password `pass` and
unix socket `/tmp/sock`, for either value of the unicode switch and of the
client-version switch. -/
theorem c3_parse_example_dsn :
    ∀ u g : Bool,
      DB._parse_connection_string ("*lockA +mydb@host:3306 user pass /tmp/sock") u g =
        .ok { kw_args :=
                { db := some ("mydb"), host := some ("host"), port := some 3306,
                  user := some ("user"), passwd := some ("pass"),
                  unix_socket := some ("/tmp/sock"), use_unicode := u,
                  charset := (if u then some ("utf8") else none),
                  client_flag_multi_statements := g },
              connection := "*lockA +mydb@host:3306 user pass /tmp/sock",
              use_TM := some true,
              mysql_lock := some ("lockA"), try_transactions := some ("+") } := by
  intro u g
  cases u <;> cases g <;> rfl

/-- C8: for every DSN string whose database target contains a port separator
followed by a port token rejected by `int()`, `DB._parse_connection_string`
fails with the resulting ValueError (the parse-time configuration failure of
the spec's error taxonomy). -/
theorem c8_bad_port_error (s t : String) (u g : Bool)
    (hport : portTokenOf s = some t) (hbad : pyParseInt t = none) :
    DB._parse_connection_string s u g = .error (.valueError t) := by
  unfold portTokenOf at hport
  unfold DB._parse_connection_string
  cases hs : pySplitWs s with
  | nil => rw [hs] at hport; simp at hport
  | cons l r =>
    rw [hs] at hport
    have h' : portTokenOfTail l r = some t := hport
    exact parseTail_bad_port (baseKwArgs u g) s l r t h' hbad

/-- C8 witness: the DSN `mydb@host:x12` has port token `x12`, which `int()`
rejects, and parsing it indeed fails with that ValueError. -/
theorem c8_bad_port_error_witness :
    DB._parse_connection_string ("mydb@host:x12") false false =
      .error (.valueError ("x12")) :=
  c8_bad_port_error ("mydb@host:x12") ("x12") false false (by rfl) (by rfl)

/-- Every statement submitted through an all-success oracle succeeds, and all
statements are submitted. -/
theorem runStmts_ok (l : List String) : runStmts okExec l = (l, .ok ()) := by
  induction l with
  | nil => rfl
  | cons s rest ih => simp [runStmts, okExec, ih]

/-- C1 counterexample: a ProgrammingError carrying the connection-lost-class
code 2014 on a transactional connection (no advisory lock, force_reconnect
false) performs a forced reconnection (`reconnects = 1`), although the claim
states that on a transactional connection the error is re-raised without any
reconnection attempt; moreover the statement is not resubmitted
(`submissions = 1`), not resubmitted exactly once. -/
theorem c1_progerr_reconnect_counterexample :
    hosed_connection.contains 2014 = true ∧
    DB._query none true false ("SELECT 1") nativeProgErr2014 =
      ⟨.error (.programmingError 2014 ("Commands out of sync")), 1, 1⟩ :=
  ⟨rfl, rfl⟩

/-- C1 (amended): for a failure with a connection-lost-class code under
`force_reconnect = false`: an OperationalError on a non-transactional,
non-locked connection leads to exactly one forced reconnection and exactly
one resubmission, whose outcome (success or any failure) is final — no
second retry; an OperationalError on a transactional or locked connection
is re-raised with no reconnection and no resubmission; a ProgrammingError
causes one forced reconnection but no resubmission and is re-raised
regardless of transactional state. -/
theorem c1_query_retry_amended (mysql_lock : Option String) (transactions : Bool)
    (q : String) (native : Nat → NativeOutcome) (code : Int) (msg : String)
    (hcode : hosed_connection.contains code = true) :
    (native 0 = .opErr code msg → optStrTruthy mysql_lock = false →
      transactions = false →
      DB._query mysql_lock transactions false q native =
        ⟨(match native 1 with
          | .ok => .ok ()
          | .opErr c2 m2 => .error (.operationalError c2 m2)
          | .progErr c2 m2 => .error (.programmingError c2 m2)), 2, 1⟩) ∧
    (native 0 = .opErr code msg →
      (optStrTruthy mysql_lock = true ∨ transactions = true) →
      DB._query mysql_lock transactions false q native =
        ⟨.error (.operationalError code msg), 1, 0⟩) ∧
    (native 0 = .progErr code msg →
      DB._query mysql_lock transactions false q native =
        ⟨.error (.programmingError code msg), 1, 1⟩) := by
  have hc : code = 2006 ∨ code = 2013 ∨ code = 2014 := by
    simpa [hosed_connection] using hcode
  have hmem : code ∈ hosed_connection := by
    rcases hc with rfl | rfl | rfl <;> simp [hosed_connection]
  have hnmem : code ∉ bad_field_error_codes := by
    rcases hc with rfl | rfl | rfl <;> simp [bad_field_error_codes]
  refine ⟨?_, ?_, ?_⟩
  · intro h0 hlock htrans
    subst htrans
    unfold DB._query
    rw [h0]
    cases hn1 : native 1 <;> simp [hmem, hnmem, hcode, hlock, hn1]
  · intro h0 hdisj
    unfold DB._query
    rw [h0]
    rcases hdisj with hl | ht
    · simp [hnmem, hl]
    · simp [hnmem, ht]
  · intro h0
    unfold DB._query
    rw [h0]
    simp [hmem]

/-- C1 witness: a lost connection (OperationalError 2013) on a
non-transactional, non-locked connection, whose single retry fails again:
the trace shows exactly one reconnection, exactly two submissions, and the
retry failure propagated as is. -/
theorem c1_query_retry_witness :
    DB._query none false false ("SELECT 1") nativeLostTwice =
      ⟨.error (.operationalError 2013 ("Lost again")), 2, 1⟩ := by
  have h := (c1_query_retry_amended none false ("SELECT 1") nativeLostTwice
      2013 ("Server lost") (by rfl)).1 (by rfl) (by rfl) (by rfl)
  rw [h]
  rfl

/-- C2: while no transaction is active (`_transaction_begun` false), both
`DB._finish` and `DB._abort` leave the state unchanged, submit no statement
(in particular no COMMIT, ROLLBACK or RELEASE_LOCK) and raise nothing;
moreover after any `DB._finish` or `DB._abort` call the flag is false, so a
second consecutive call without an intervening `DB._begin` is such a no-op. -/
theorem c2_finish_abort_idle_noop (c c' : TxState)
    (exec exec' : String → Except PyErr Unit)
    (h : c.transaction_begun = false) :
    DB._finish c exec = ⟨c, [], .ok ()⟩ ∧
    DB._abort c exec = ⟨c, [], .ok ()⟩ ∧
    (DB._finish c' exec').state.transaction_begun = false ∧
    (DB._abort c' exec').state.transaction_begun = false := by
  refine ⟨?_, ?_, ?_, ?_⟩
  · simp [DB._finish, h]
  · simp [DB._abort, h]
  · unfold DB._finish
    by_cases hb : c'.transaction_begun = false
    · simp [hb]
    · simp [hb]
  · unfold DB._abort
    by_cases hb : c'.transaction_begun = false
    · simp [hb]
    · simp [hb]

/-- C2 witness: on a concrete idle transactional locked connection, finish
and abort are no-ops that send nothing, and stay no-ops when repeated. -/
theorem c2_finish_abort_idle_noop_witness :
    DB._finish ⟨some ("lck"), true, false⟩ okExec =
      ⟨⟨some ("lck"), true, false⟩, [], .ok ()⟩ ∧
    DB._abort ⟨some ("lck"), true, false⟩ okExec =
      ⟨⟨some ("lck"), true, false⟩, [], .ok ()⟩ ∧
    (DB._finish ⟨some ("lck"), true, false⟩ okExec).state.transaction_begun = false ∧
    (DB._abort ⟨some ("lck"), true, false⟩ okExec).state.transaction_begun = false :=
  c2_finish_abort_idle_noop ⟨some ("lck"), true, false⟩
    ⟨some ("lck"), true, false⟩ okExec okExec (by rfl)

/-- C9: `DB._begin` sets the in-transaction flag before any server
interaction, so the connection is active afterwards whatever the ping and
statement outcomes were; any failure surfaces as ConflictError; and on a
transactional connection a subsequent finish or abort (statements
succeeding) is no no-op: it attempts COMMIT respectively ROLLBACK. -/
theorem c9_begin_sets_active (c : TxState) (ping : Except PyErr Unit)
    (exec : String → Except PyErr Unit) :
    (DB._begin c ping exec).state.transaction_begun = true ∧
    ((DB._begin c ping exec).result = .ok () ∨
      (DB._begin c ping exec).result = .error .conflictError) ∧
    (c.transactions = true →
      "COMMIT" ∈ (DB._finish (DB._begin c ping exec).state okExec).sent ∧
      "ROLLBACK" ∈ (DB._abort (DB._begin c ping exec).state okExec).sent) := by
  have hstate : (DB._begin c ping exec).state = { c with transaction_begun := true } := by
    unfold DB._begin
    cases ping <;> rfl
  refine ⟨?_, ?_, ?_⟩
  · rw [hstate]
  · unfold DB._begin
    cases ping with
    | error e => simp
    | ok u =>
      cases hr : (runStmts exec (beginStmts c)).2 with
      | error e => simp [hr]
      | ok u2 => simp [hr]
  · intro ht
    rw [hstate]
    constructor
    · unfold DB._finish
      simp [runStmts_ok, finishStmts, ht]
    · unfold DB._abort
      simp [runStmts_ok, abortStmts, ht]

/-- C9 witness: on a concrete transactional connection, after `DB._begin` a
finish attempts COMMIT and an abort attempts ROLLBACK. -/
theorem c9_begin_sets_active_witness :
    "COMMIT" ∈ (DB._finish (DB._begin ⟨none, true, false⟩ (.ok ()) okExec).state okExec).sent ∧
    "ROLLBACK" ∈ (DB._abort (DB._begin ⟨none, true, false⟩ (.ok ()) okExec).state okExec).sent :=
  (c9_begin_sets_active ⟨none, true, false⟩ (.ok ()) okExec).2.2 (by rfl)

/-- The statement loop raises the schema ProgrammingError exactly when a
result set is produced right after a result set with a differing
description, and otherwise ends with the `loopPure` accumulators. -/
theorem queryLoop_spec (exec : String → Option RS) (mr : Nat) :
    ∀ (ss : List String) (d : Option (List FieldDesc)) (r : List (List String)),
      (consecMismatchFrom d (ss.map (fun s => exec (mungeStatement s mr))) = true →
        queryLoop exec mr ss d r =
          .error (.programmingErrorMsg ("Multiple select schema are not allowed."))) ∧
      (consecMismatchFrom d (ss.map (fun s => exec (mungeStatement s mr))) = false →
        queryLoop exec mr ss d r =
          .ok (loopPure mr (ss.map (fun s => exec (mungeStatement s mr))) d r)) := by
  intro ss
  induction ss with
  | nil =>
    intro d r
    exact ⟨fun h => by simp [consecMismatchFrom] at h, fun _ => rfl⟩
  | cons qs rest ih =>
    intro d r
    cases ho : exec (mungeStatement qs mr) with
    | none =>
      have hm : consecMismatchFrom d ((qs :: rest).map (fun s => exec (mungeStatement s mr)))
          = consecMismatchFrom none (rest.map (fun s => exec (mungeStatement s mr))) := by
        cases d <;> simp [consecMismatchFrom, ho, pairMismatch]
      have hq : queryLoop exec mr (qs :: rest) d r = queryLoop exec mr rest none r := by
        cases d <;> simp [queryLoop, ho]
      have hp : loopPure mr ((qs :: rest).map (fun s => exec (mungeStatement s mr))) d r
          = loopPure mr (rest.map (fun s => exec (mungeStatement s mr))) none r := by
        simp [loopPure, ho]
      rw [hm, hq, hp]
      exact ih none r
    | some rs =>
      cases d with
      | none =>
        have hm : consecMismatchFrom none ((qs :: rest).map (fun s => exec (mungeStatement s mr)))
            = consecMismatchFrom (some rs.desc) (rest.map (fun s => exec (mungeStatement s mr))) := by
          simp [consecMismatchFrom, ho, pairMismatch]
        have hq : queryLoop exec mr (qs :: rest) none r
            = queryLoop exec mr rest (some rs.desc) (fetch_row rs mr) := by
          simp [queryLoop, ho]
        have hp : loopPure mr ((qs :: rest).map (fun s => exec (mungeStatement s mr))) none r
            = loopPure mr (rest.map (fun s => exec (mungeStatement s mr)))
                (some rs.desc) (fetch_row rs mr) := by
          simp [loopPure, ho]
        rw [hm, hq, hp]
        exact ih (some rs.desc) (fetch_row rs mr)
      | some dd =>
        by_cases hdd : rs.desc = dd
        · have hm : consecMismatchFrom (some dd) ((qs :: rest).map (fun s => exec (mungeStatement s mr)))
              = consecMismatchFrom (some rs.desc) (rest.map (fun s => exec (mungeStatement s mr))) := by
            simp [consecMismatchFrom, ho, pairMismatch, hdd]
          have hq : queryLoop exec mr (qs :: rest) (some dd) r
              = queryLoop exec mr rest (some rs.desc) (fetch_row rs mr) := by
            simp [queryLoop, ho, hdd]
          have hp : loopPure mr ((qs :: rest).map (fun s => exec (mungeStatement s mr))) (some dd) r
              = loopPure mr (rest.map (fun s => exec (mungeStatement s mr)))
                  (some rs.desc) (fetch_row rs mr) := by
            simp [loopPure, ho]
          rw [hm, hq, hp]
          exact ih (some rs.desc) (fetch_row rs mr)
        · constructor
          · intro h
            simp [queryLoop, ho, hdd]
          · intro h
            exfalso
            simp [consecMismatchFrom, pairMismatch, ho, hdd] at h

/-- When the last statement outcome is a result set, the loop accumulators
end at its description and its first `mr` rows. -/
theorem loopPure_last_some (mr : Nat) :
    ∀ (os : List (Option RS)) (d : Option (List FieldDesc))
      (r : List (List String)) (rs : RS),
      lastOutcome os = some rs →
      loopPure mr os d r = (some rs.desc, fetch_row rs mr) := by
  intro os
  induction os with
  | nil => intro d r rs h; simp [lastOutcome] at h
  | cons o rest ih =>
    intro d r rs h
    cases rest with
    | nil =>
      simp [lastOutcome] at h
      subst h
      simp [loopPure]
    | cons o2 rest2 =>
      have h' : lastOutcome (o2 :: rest2) = some rs := by
        simpa [lastOutcome] using h
      cases o with
      | some rs1 => simpa [loopPure] using ih (some rs1.desc) (fetch_row rs1 mr) rs h'
      | none => simpa [loopPure] using ih none r rs h'

/-- When a nonempty run of statement outcomes ends in a statement with no
result set, the loop's final description is None. -/
theorem loopPure_last_none (mr : Nat) :
    ∀ (os : List (Option RS)) (d : Option (List FieldDesc))
      (r : List (List String)),
      lastOutcome os = none → os ≠ [] →
      (loopPure mr os d r).1 = none := by
  intro os
  induction os with
  | nil => intro d r h hne; exact absurd rfl hne
  | cons o rest ih =>
    intro d r h hne
    cases rest with
    | nil =>
      simp [lastOutcome] at h
      subst h
      simp [loopPure]
    | cons o2 rest2 =>
      have h' : lastOutcome (o2 :: rest2) = none := by
        simpa [lastOutcome] using h
      cases o with
      | some rs1 => simpa [loopPure] using ih (some rs1.desc) (fetch_row rs1 mr) h' (by simp)
      | none => simpa [loopPure] using ih none r h' (by simp)

/-- C4 counterexample: in the batch `SHOW A`, `DO 1`, `SHOW C`, the first
and third statements produce non-empty result sets with differing column
descriptions, yet `DB.query` raises no ProgrammingError — it returns the
third statement's schema and rows, because the no-result middle statement
resets the comparison description. -/
theorem c4_schema_counterexample :
    rsA.desc ≠ rsC.desc ∧
    execC4 ("SHOW A") = some rsA ∧ execC4 ("DO 1") = none ∧
    execC4 ("SHOW C") = some rsC ∧
    rsA.rows ≠ [] ∧ rsC.rows ≠ [] ∧
    DB.query execC4 ("SHOW A\x00DO 1\x00SHOW C") 1000 =
      .ok ([⟨"c", "t", 20, 0⟩], [["x"]]) := by
  refine ⟨by decide, rfl, rfl, rfl, by decide, by decide, rfl⟩

/-- C4 (amended): `DB.query` raises the ProgrammingError (`Multiple select
schema are not allowed.`) exactly when a statement producing a result set
immediately follows a statement that produced a result set with a
different column description; without such a consecutive clash it returns
the description (as column items) and rows of the final statement when
that statement produces a result set, and empty schema and rows when it
does not (even when earlier statements produced results). -/
theorem c4_query_batch_amended (exec : String → Option RS) (mr : Nat)
    (q : String) :
    (consecMismatch ((stmtsOf q).map (fun s => exec (mungeStatement s mr))) = true →
      DB.query exec q mr =
        .error (.programmingErrorMsg ("Multiple select schema are not allowed."))) ∧
    (consecMismatch ((stmtsOf q).map (fun s => exec (mungeStatement s mr))) = false →
      (∀ rs, lastOutcome ((stmtsOf q).map (fun s => exec (mungeStatement s mr))) = some rs →
        DB.query exec q mr = .ok (rs.desc.map descItem, fetch_row rs mr)) ∧
      (lastOutcome ((stmtsOf q).map (fun s => exec (mungeStatement s mr))) = none →
        DB.query exec q mr = .ok ([], []))) := by
  constructor
  · intro h
    unfold DB.query
    rw [(queryLoop_spec exec mr (stmtsOf q) none []).1 h]
  · intro h
    have hq := (queryLoop_spec exec mr (stmtsOf q) none []).2 h
    constructor
    · intro rs hlast
      unfold DB.query
      rw [hq, loopPure_last_some mr _ none [] rs hlast]
    · intro hlast
      unfold DB.query
      rw [hq]
      cases hos : (stmtsOf q).map (fun s => exec (mungeStatement s mr)) with
      | nil => rfl
      | cons o os =>
        have h1 : (loopPure mr ((stmtsOf q).map (fun s => exec (mungeStatement s mr))) none []).1 = none :=
          loopPure_last_none mr _ none [] hlast (by rw [hos]; simp)
        rw [hos] at h1
        rw [← Prod.mk.eta (p := loopPure mr (o :: os) none []), h1]

/-- C4 witness: on the batch `SHOW A`, `SHOW C`, whose two consecutive
statements produce result sets with differing descriptions, `DB.query`
raises the ProgrammingError. -/
theorem c4_query_batch_witness :
    DB.query execC4 ("SHOW A\x00SHOW C") 1000 =
      .error (.programmingErrorMsg ("Multiple select schema are not allowed.")) :=
  (c4_query_batch_amended execC4 1000 ("SHOW A\x00SHOW C")).1 (by rfl)

/-- C7: for every statement whose first word upper-cases to SELECT, the
text ` LIMIT max_rows` is appended before submission when `max_rows` is
nonzero, and the statement is submitted unmodified when `max_rows` is 0
(`mungeStatement` being exactly the transformation `DB.query` applies to a
statement before handing it to `_query`). -/
theorem c7_select_limit (qs : String) (mr : Nat)
    (h : pyUpper (firstWord qs) = "SELECT") :
    (mr ≠ 0 → mungeStatement qs mr = qs ++ " LIMIT " ++ toString mr) ∧
    mungeStatement qs 0 = qs := by
  constructor
  · intro hmr
    simp [mungeStatement, h, hmr]
  · simp [mungeStatement]

/-- C7 witness: the SELECT detection is case-insensitive, a lower-case
select receives the row cap with `max_rows = 10` and stays unmodified with
`max_rows = 0`. -/
theorem c7_select_limit_witness :
    mungeStatement ("select * from t") 10 = "select * from t LIMIT 10" ∧
    mungeStatement ("select * from t") 0 = "select * from t" := by
  have h := c7_select_limit ("select * from t") 10 (by rfl)
  refine ⟨?_, h.2⟩
  rw [h.1 (by decide)]
  rfl

/-- C5 counterexample: `DB.savepoint` on an idle connection whose server
version is not yet cached does raise AttributeError, but it submits the
SHOW VARIABLES version probe first — the claim that no SQL statement is
issued fails. -/
theorem c5_savepoint_counterexample :
    (DB.savepoint ⟨none, false⟩ ("5.5.0") ("sp1")).sent = ["SHOW VARIABLES"] ∧
    (DB.savepoint ⟨none, false⟩ ("5.5.0") ("sp1")).result = .error .attributeError :=
  ⟨rfl, rfl⟩

/-- C5 (amended): `DB.savepoint` called with no open transaction fails with
AttributeError (the optimistic signal for the coordinator's fallback) and
submits no statement other than possibly the single SHOW VARIABLES
server-version probe (which is issued when the version is not yet cached);
in particular it never submits a SAVEPOINT statement. -/
theorem c5_savepoint_amended (c : SpConn) (sv ident : String)
    (h : c.transaction_begun = false) :
    (DB.savepoint c sv ident).result = .error .attributeError ∧
    ∀ s ∈ (DB.savepoint c sv ident).sent, s = "SHOW VARIABLES" := by
  unfold DB.savepoint DB._mysql_version
  by_cases hc : c.version_cache.getD ("") ≠ ""
  · simp only [if_pos hc]
    cases hv : pyStrLt (c.version_cache.getD ("")) ("5.0.2") with
    | true => simp [hv]
    | false => simp [hv, h]
  · simp only [if_neg hc]
    cases hv : pyStrLt sv ("5.0.2") with
    | true => simp [hv]
    | false => simp [hv, h]

/-- C5 witness: with the version already cached on an idle connection, the
call raises AttributeError and submits nothing at all. -/
theorem c5_savepoint_witness :
    (DB.savepoint ⟨some ("5.5.0"), false⟩ ("5.5.0") ("sp2")).result =
      .error .attributeError ∧
    ∀ s ∈ (DB.savepoint ⟨some ("5.5.0"), false⟩ ("5.5.0") ("sp2")).sent,
      s = "SHOW VARIABLES" :=
  c5_savepoint_amended ⟨some ("5.5.0"), false⟩ ("5.5.0") ("sp2") (by rfl)

/-- C6: during pool resolution, a force-on policy (`+`) against a server
without transaction support fails with NotSupportedError (the spec's
unsupported-capability error); an auto-detect policy (no marker) against
such a server silently downgrades to non-transactional; and a force-off
policy (`-`) yields a non-transactional configuration whatever the server
supports. -/
theorem c6_reconcile_policy (transactional : Bool) :
    (transactional = false →
      DBPool.reconcile_transactions (some ("+")) transactional =
        .error (.notSupportedError ("transactions not supported by the server"))) ∧
    (transactional = false →
      DBPool.reconcile_transactions none transactional = .ok false) ∧
    DBPool.reconcile_transactions (some ("-")) transactional = .ok false := by
  refine ⟨?_, ?_, ?_⟩
  · intro h; subst h; rfl
  · intro h; subst h; rfl
  · rfl

/-- C6 witness: the three policies evaluated against a server without
transaction support. -/
theorem c6_reconcile_policy_witness :
    DBPool.reconcile_transactions (some ("+")) false =
      .error (.notSupportedError ("transactions not supported by the server")) ∧
    DBPool.reconcile_transactions none false = .ok false ∧
    DBPool.reconcile_transactions (some ("-")) false = .ok false :=
  ⟨(c6_reconcile_policy false).1 rfl, (c6_reconcile_policy false).2.1 rfl,
    (c6_reconcile_policy false).2.2⟩

/-- C10: on every input of length 14 or more, `_mysql_timestamp_converter`
raises the unbound-local error on `parts` instead of returning a DateTime
(the assignment to `parts` lives only in the branch for inputs shorter
than 14 characters), so only shorter inputs can produce a DateTime. -/
theorem c10_timestamp_unbound (s : String) (h : 14 ≤ s.length) :
    _mysql_timestamp_converter s = .error (.unboundLocalError ("parts")) := by
  unfold _mysql_timestamp_converter
  rw [if_neg (Nat.not_lt.mpr h)]

/-- C10 witness: a full 14-character timestamp raises the unbound-local
error. -/
theorem c10_timestamp_unbound_witness :
    14 ≤ ("20240101123456" : String).length ∧
    _mysql_timestamp_converter ("20240101123456") =
      .error (.unboundLocalError ("parts")) :=
  ⟨by decide, c10_timestamp_unbound ("20240101123456") (by decide)⟩
